import Mathlib

/-!
Shallow embedding of the student-record auth/listing app.

Sources embedded here:
- `screens/LoginScreen.tsx`: `normalizeNim`, `trimValue`, `validateForm`,
  `buildUserPayload`, `persistUser`, `clearPersistedUser`, `handleAuth`,
  the mount effect (session bootstrap), and the email regex test.
- `MahasiswaScreen` (unnamed part): `handleLogout`, `fetchData`, the
  document-to-display mapping, and the render branch.

Strings are `List Char`; the MMKV key-value store is a function from keys
to optional string values; the Firestore collection is a function from
document ids to optional documents.  Asynchronous remote reads are
modelled by an oracle (`ReadOutcome`) saying which of the server read and
the cache read succeed, and side effects are recorded in an event trace.
-/

abbrev Str := List Char

/-- Keys of the local MMKV store (`STORAGE_KEYS` in both screens). -/
def KEY_nim : Str := "user_nim".data

def KEY_nama : Str := "user_nama".data

def KEY_email : Str := "user_email".data

/-- Alert message `'NIM wajib diisi.'`. -/
def msgNimRequired : Str := "NIM wajib diisi.".data

def msgPasswordRequired : Str := "Password wajib diisi.".data

def msgNamaRequired : Str := "Nama wajib diisi.".data

def msgEmailRequired : Str := "Email wajib diisi.".data

def msgEmailInvalid : Str := "Format email tidak valid.".data

/-- Default display name `'Mahasiswa'` used by the `?? 'Mahasiswa'` fallbacks. -/
def msgDefaultName : Str := "Mahasiswa".data

/-- JavaScript whitespace as relevant to `String.prototype.trim` on the
character set this app manipulates. -/
def isWs (c : Char) : Bool :=
  c = ' ' || c = '\t' || c = '\n' || c = '\r'

/-- `trimValue = (value) => value.trim()` from LoginScreen. -/
def trimValue (s : Str) : Str :=
  ((s.dropWhile isWs).reverse.dropWhile isWs).reverse

/-- `normalizeNim = (value) => value.trim().toLowerCase()` from LoginScreen. -/
def normalizeNim (s : Str) : Str :=
  (trimValue s).map Char.toLower

/-- The form state of LoginScreen (`initialFormState` shape). -/
structure FormState where
  nim : Str
  nama : Str
  email : Str
  password : Str
deriving DecidableEq

inductive AuthMode where
  | login
  | register
deriving DecidableEq

/-- A document of the `mahasiswa` collection as read back by the app.
Fields are optional because a document may come from outside the
register path (the code guards each field with `??` fallbacks and the
password comparison tolerates a missing field). -/
structure UserDoc where
  nim : Option Str := none
  nama : Option Str := none
  email : Option Str := none
  password : Option Str := none
  nimKey : Option Str := none
deriving DecidableEq

/-- The remote `mahasiswa` collection: document id to document. -/
abbrev RemoteStore := Str → Option UserDoc

/-- The local MMKV store: key to optional string (`getString` returns
`string | undefined`). -/
abbrev LocalStore := Str → Option Str

def emptyStore : LocalStore := fun _ => none

/-- `storage.set(k, v)`. -/
def setKey (st : LocalStore) (k v : Str) : LocalStore :=
  fun q => if q = k then some v else st q

/-- `storage.delete(k)`. -/
def delKey (st : LocalStore) (k : Str) : LocalStore :=
  fun q => if q = k then none else st q

/-- `setDoc(docRef, d)` at document id `k`. -/
def setDocAt (r : RemoteStore) (k : Str) (d : UserDoc) : RemoteStore :=
  fun q => if q = k then some d else r q

/-- Truthiness of `storage.getString(k)`: `undefined` and `''` are falsy. -/
def truthy : Option Str → Bool
  | none => false
  | some s => !s.isEmpty

/-- `/.+@.+\..+/.test(s)`: the unanchored JavaScript regex test.  It holds
iff some position `i` carries `'@'` preceded by at least one non-newline
character, and some later position `j` carries `'.'` with at least one
character strictly between `i` and `j`, all of them non-newline, and a
non-newline character right after `j` (`.` matches everything but
newline; the surrounding text is unconstrained because the pattern is
unanchored). -/
def emailRegexTest (s : Str) : Bool :=
  (List.range s.length).any fun i =>
    (List.range s.length).any fun j =>
      decide (1 ≤ i) &&
      decide (i + 1 < j) &&
      (s.get? i == some '@') &&
      (s.get? j == some '.') &&
      ((s.get? (i - 1)).any fun c => c != '\n') &&
      (((s.drop (i + 1)).take (j - (i + 1))).all fun c => c != '\n') &&
      ((s.get? (j + 1)).any fun c => c != '\n')

/-- `validateForm` from LoginScreen: returns the alert message, or `none`
when the form passes. -/
def validateForm (mode : AuthMode) (form : FormState) : Option Str :=
  if trimValue form.nim = [] then some msgNimRequired
  else if trimValue form.password = [] then some msgPasswordRequired
  else if mode = AuthMode.register then
    if trimValue form.nama = [] then some msgNamaRequired
    else if trimValue form.email = [] then some msgEmailRequired
    else if !emailRegexTest (trimValue form.email) then some msgEmailInvalid
    else none
  else none

/-- The payload built by `buildUserPayload`: trimmed nim/nama/email, raw
password. -/
structure UserPayload where
  nim : Str
  nama : Str
  email : Str
  password : Str
deriving DecidableEq

def buildUserPayload (form : FormState) : UserPayload :=
  ⟨trimValue form.nim, trimValue form.nama, trimValue form.email, form.password⟩

/-- The structural argument of `persistUser` (`{nim, nama, email?}`;
TypeScript lets the register path pass an object that additionally
carries the password, which `persistUser` never reads). -/
structure PersistArg where
  nim : Str
  nama : Str
  email : Option Str := none
  password : Option Str := none
deriving DecidableEq

/-- `persistUser` from LoginScreen: writes the three session keys, with
`user.email ?? ''` for the email. -/
def persistUser (st : LocalStore) (u : PersistArg) : LocalStore :=
  setKey (setKey (setKey st KEY_nim u.nim) KEY_nama u.nama) KEY_email (u.email.getD [])

/-- `clearPersistedUser` from LoginScreen: deletes the three keys. -/
def clearPersistedUser (st : LocalStore) : LocalStore :=
  delKey (delKey (delKey st KEY_nim) KEY_nama) KEY_email

/-- `handleLogout` from MahasiswaScreen: sets each of the three keys to
the empty string. -/
def handleLogout (st : LocalStore) : LocalStore :=
  setKey (setKey (setKey st KEY_nim []) KEY_nama []) KEY_email []

/-- Result of the session bootstrap (LoginScreen's mount effect). -/
inductive BootResult where
  | routeToListing
  | renderForm
deriving DecidableEq

/-- LoginScreen's mount effect: auto-route to the Mahasiswa screen when
`nim && nama` are truthy, otherwise render the form. -/
def sessionBootstrap (st : LocalStore) : BootResult :=
  if truthy (st KEY_nim) && truthy (st KEY_nama) then BootResult.routeToListing
  else BootResult.renderForm

/-- Side effects of one `handleAuth` run, in execution order. -/
inductive Event where
  | readServer
  | readCache
  | write
  | persist
  | navigate
deriving DecidableEq, BEq

instance : LawfulBEq Event where
  eq_of_beq := by
    intro a b h
    cases a <;> cases b <;> first | rfl | exact Bool.noConfusion h
  rfl := by intro a; cases a <;> rfl

/-- Errors of the submit operation (spec taxonomy; each constructor
corresponds to one alert of `handleAuth`). -/
inductive AuthError where
  | validationError (msg : Str)
  | connectivityError
  | connectivityRequiredError
  | duplicateIdentifierError
  | notFoundError
  | invalidCredentialError
deriving DecidableEq

/-- Which of the two reads succeed during one submit: the server read, or
the server read fails and the cache read succeeds (serving from a cache
state), or both fail. -/
inductive ReadOutcome where
  | serverOk
  | cacheOk (cache : RemoteStore)
  | bothFail

/-- The server-then-cache lookup: the resolved snapshot plus the
`usedCache` flag, or `none` when both reads fail. -/
def lookup (remote : RemoteStore) (outcome : ReadOutcome) (key : Str) :
    Option (Option UserDoc × Bool) :=
  match outcome with
  | ReadOutcome.serverOk => some (remote key, false)
  | ReadOutcome.cacheOk cache => some (cache key, true)
  | ReadOutcome.bothFail => none

/-- Read events produced by the server-then-cache fallback (the server
read is always attempted first; the cache read only after it fails). -/
def readTrace (outcome : ReadOutcome) : List Event :=
  match outcome with
  | ReadOutcome.serverOk => [Event.readServer]
  | ReadOutcome.cacheOk _ => [Event.readServer, Event.readCache]
  | ReadOutcome.bothFail => [Event.readServer, Event.readCache]

/-- Output of one `handleAuth` run: the error (`none` on success), both
stores after the run, and the event trace. -/
structure AuthOutput where
  result : Option AuthError
  remote : RemoteStore
  loc : LocalStore
  trace : List Event

/-- The document written by `setDoc(docRef, {...payload, nimKey})`. -/
def registeredDoc (payload : UserPayload) (nimKey : Str) : UserDoc :=
  ⟨some payload.nim, some payload.nama, some payload.email,
    some payload.password, some nimKey⟩

/-- The login tail of `handleAuth`: the not-found check, the
password comparison (`data.password !== form.password`), and the
persist/navigate sequence built from the stored record with the
`?? nimForDisplay` / `?? 'Mahasiswa'` / `?? ''` fallbacks. -/
def loginBranch (form : FormState) (remote : RemoteStore) (loc : LocalStore)
    (nimForDisplay : Str) (tr : List Event) :
    Option UserDoc → AuthOutput
  | none => ⟨some AuthError.notFoundError, remote, loc, tr⟩
  | some data =>
    if data.password ≠ some form.password then
      ⟨some AuthError.invalidCredentialError, remote, loc, tr⟩
    else
      ⟨none, remote,
        persistUser loc
          ⟨data.nim.getD nimForDisplay, data.nama.getD msgDefaultName,
            some (data.email.getD []), none⟩,
        tr ++ [Event.persist, Event.navigate]⟩

/-- The part of `handleAuth` after the fetch resolved to `snapshot` with
provenance `usedCache`: the register cache-rejection, the existence
branch, the write/persist/navigate sequence on register, and the login
tail. -/
def afterFetch (mode : AuthMode) (form : FormState) (remote : RemoteStore)
    (loc : LocalStore) (nimKey nimForDisplay : Str) (snapshot : Option UserDoc)
    (usedCache : Bool) (tr : List Event) : AuthOutput :=
  if mode = AuthMode.register ∧ usedCache = true then
    ⟨some AuthError.connectivityRequiredError, remote, loc, tr⟩
  else if mode = AuthMode.register then
    if snapshot.isSome then ⟨some AuthError.duplicateIdentifierError, remote, loc, tr⟩
    else
      ⟨none, setDocAt remote nimKey (registeredDoc (buildUserPayload form) nimKey),
        persistUser loc
          ⟨(buildUserPayload form).nim, (buildUserPayload form).nama,
            some (buildUserPayload form).email, some (buildUserPayload form).password⟩,
        tr ++ [Event.write, Event.persist, Event.navigate]⟩
  else
    loginBranch form remote loc nimForDisplay tr snapshot

/-- `handleAuth` from LoginScreen as a pure state transformer: validation,
then the server-then-cache lookup, then `afterFetch`. -/
def handleAuth (mode : AuthMode) (form : FormState) (remote : RemoteStore)
    (loc : LocalStore) (outcome : ReadOutcome) : AuthOutput :=
  match validateForm mode form with
  | some msg => ⟨some (AuthError.validationError msg), remote, loc, []⟩
  | none =>
    match lookup remote outcome (normalizeNim form.nim) with
    | none => ⟨some AuthError.connectivityError, remote, loc, readTrace outcome⟩
    | some (snapshot, usedCache) =>
      afterFetch mode form remote loc (normalizeNim form.nim) (trimValue form.nim)
        snapshot usedCache (readTrace outcome)

/-- A display record of the Mahasiswa listing. -/
structure Mahasiswa where
  nim : Str
  nama : Str
  email : Str
deriving DecidableEq

/-- A raw document as seen by the listing scan: its id plus its fields. -/
structure MahasiswaDoc where
  id : Str
  nim : Option Str := none
  nama : Option Str := none
  email : Option Str := none
deriving DecidableEq

/-- The per-document mapping inside `fetchData`'s `snap.forEach`. -/
def mapDoc (d : MahasiswaDoc) : Mahasiswa :=
  ⟨d.nim.getD d.id, d.nama.getD msgDefaultName, d.email.getD []⟩

/-- Whether the collection scan of the listing screen succeeds. -/
inductive ScanOutcome where
  | ok (docs : List MahasiswaDoc)
  | fail
deriving DecidableEq

/-- Component state of MahasiswaScreen. -/
structure MahasiswaState where
  data : List Mahasiswa
  loading : Bool
deriving DecidableEq

def initialMState : MahasiswaState := ⟨[], true⟩

/-- `fetchData` from MahasiswaScreen: on success store the mapped list;
on failure only log (`console.error`) and stop loading — `setData` is
never called, so `data` keeps its previous value.  The boolean is true
iff an error was logged. -/
def fetchData (st : MahasiswaState) : ScanOutcome → MahasiswaState × Bool
  | ScanOutcome.ok docs => (⟨docs.map mapDoc, false⟩, false)
  | ScanOutcome.fail => (⟨st.data, false⟩, true)

/-- What MahasiswaScreen renders: a loading indicator or the list (there
is no error view in the component). -/
inductive ListingView where
  | loadingView
  | listView (items : List Mahasiswa)
deriving DecidableEq

def renderListing (st : MahasiswaState) : ListingView :=
  if st.loading then ListingView.loadingView else ListingView.listView st.data

/-- The Session Record invariant: the three local keys are either all
absent or all present. -/
def allOrNone (st : LocalStore) : Prop :=
  ((st KEY_nim).isSome = (st KEY_nama).isSome) ∧
  ((st KEY_nama).isSome = (st KEY_email).isSome)

/-- Local stores reachable from the fresh install by the app's
operations: any submit (login or register, any connectivity outcome),
the listing screen's logout, and LoginScreen's local logout.  The
session bootstrap only reads the store. -/
inductive Reachable : LocalStore → Prop where
  | init : Reachable emptyStore
  | auth (mode : AuthMode) (form : FormState) (remote : RemoteStore)
      (outcome : ReadOutcome) {st : LocalStore} :
      Reachable st → Reachable (handleAuth mode form remote st outcome).loc
  | logoutListing {st : LocalStore} :
      Reachable st → Reachable (handleLogout st)
  | logoutLocal {st : LocalStore} :
      Reachable st → Reachable (clearPersistedUser st)

/-- Strict ordering of the side effects of a successful submit: the
session persist happens and precedes the navigation signal; in register
mode the remote write happens and precedes the persist; in login mode
there is no remote write. -/
def orderedEffects (mode : AuthMode) (t : List Event) : Prop :=
  Event.persist ∈ t ∧ Event.navigate ∈ t ∧
  t.indexOf Event.persist < t.indexOf Event.navigate ∧
  (mode = AuthMode.register →
    Event.write ∈ t ∧ t.indexOf Event.write < t.indexOf Event.persist) ∧
  (mode = AuthMode.login → Event.write ∉ t)

/-! ### Auxiliary lemmas about trimming -/

theorem dropWhile_eq_nil_iff_all {p : Char → Bool} {l : Str} :
    l.dropWhile p = [] ↔ ∀ c ∈ l, p c := by
  induction l with
  | nil => simp
  | cons a t ih =>
    cases hp : p a with
    | true => simp [List.dropWhile_cons, hp, ih]
    | false => simp [List.dropWhile_cons, hp]

theorem head_dropWhile_false {p : Char → Bool} {l : Str} {c : Char}
    (h : (l.dropWhile p).head? = some c) : p c = false := by
  induction l with
  | nil => simp at h
  | cons a t ih =>
    cases hp : p a with
    | true =>
      rw [List.dropWhile_cons, if_pos hp] at h
      exact ih h
    | false =>
      rw [List.dropWhile_cons, if_neg (by simp [hp])] at h
      simp at h
      rw [← h]
      exact hp

theorem mem_of_mem_dropWhile {p : Char → Bool} {l : Str} {c : Char}
    (h : c ∈ l.dropWhile p) : c ∈ l := by
  induction l with
  | nil => simp at h
  | cons a t ih =>
    cases hp : p a with
    | true =>
      rw [List.dropWhile_cons, if_pos hp] at h
      exact List.mem_cons_of_mem _ (ih h)
    | false =>
      rw [List.dropWhile_cons, if_neg (by simp [hp])] at h
      exact h

theorem all_of_all_dropWhile {p : Char → Bool} {l : Str}
    (h : ∀ c ∈ l.dropWhile p, p c) : ∀ c ∈ l, p c := by
  induction l with
  | nil => simp
  | cons a t ih =>
    cases hp : p a with
    | true =>
      rw [List.dropWhile_cons, if_pos hp] at h
      intro c hc
      rcases List.mem_cons.mp hc with rfl | hct
      · exact hp
      · exact ih h c hct
    | false =>
      rw [List.dropWhile_cons, if_neg (by simp [hp])] at h
      exact h

/-- `trimValue` yields the empty string exactly when every character of
the input is whitespace. -/
theorem trimValue_eq_nil_iff {l : Str} : trimValue l = [] ↔ ∀ c ∈ l, isWs c := by
  unfold trimValue
  rw [List.reverse_eq_nil_iff, dropWhile_eq_nil_iff_all]
  constructor
  · intro h
    refine all_of_all_dropWhile fun c hc => ?_
    exact h c (List.mem_reverse.mpr hc)
  · intro h c hc
    exact h c (mem_of_mem_dropWhile (List.mem_reverse.mp hc))

/-- A non-whitespace character survives trimming: trimming a string whose
trim is non-empty again yields a non-empty string. -/
theorem trimValue_trimValue_ne_nil {l : Str} (h : trimValue l ≠ []) :
    trimValue (trimValue l) ≠ [] := by
  intro hnil
  have hl : ¬ ∀ c ∈ l, isWs c := fun hall => h (trimValue_eq_nil_iff.mpr hall)
  have hall : ∀ c ∈ trimValue l, isWs c := trimValue_eq_nil_iff.mp hnil
  have hm : ¬ ∀ c ∈ l.dropWhile isWs, isWs c := by
    intro hdw
    exact hl (all_of_all_dropWhile hdw)
  have hmr : ¬ ∀ c ∈ (l.dropWhile isWs).reverse, isWs c := by
    intro hr
    exact hm fun c hc => hr c (List.mem_reverse.mpr hc)
  have hne : (l.dropWhile isWs).reverse.dropWhile isWs ≠ [] := by
    intro hz
    exact hmr (dropWhile_eq_nil_iff_all.mp hz)
  cases hd : (l.dropWhile isWs).reverse.dropWhile isWs with
  | nil => exact absurd hd hne
  | cons c0 t0 =>
    have hc0 : isWs c0 = false := head_dropWhile_false (by rw [hd]; rfl)
    have hc0mem : c0 ∈ trimValue l := by
      unfold trimValue
      rw [hd]
      exact List.mem_reverse.mpr (List.mem_cons_self _ _)
    have := hall c0 hc0mem
    rw [hc0] at this
    exact Bool.false_ne_true this

/-- `normalizeNim` is empty exactly when the trimmed identifier is. -/
theorem normalizeNim_eq_nil_iff {l : Str} :
    normalizeNim l = [] ↔ trimValue l = [] := by
  unfold normalizeNim
  exact List.map_eq_nil_iff

/-! ### Key disjointness and store lemmas -/

theorem key_nim_ne_nama : KEY_nim ≠ KEY_nama := by decide

theorem key_nim_ne_email : KEY_nim ≠ KEY_email := by decide

theorem key_nama_ne_email : KEY_nama ≠ KEY_email := by decide

theorem persistUser_at_nim (st : LocalStore) (u : PersistArg) :
    persistUser st u KEY_nim = some u.nim := by
  simp [persistUser, setKey, key_nim_ne_email, key_nim_ne_nama]

theorem persistUser_at_nama (st : LocalStore) (u : PersistArg) :
    persistUser st u KEY_nama = some u.nama := by
  simp [persistUser, setKey, key_nama_ne_email]

theorem persistUser_at_email (st : LocalStore) (u : PersistArg) :
    persistUser st u KEY_email = some (u.email.getD []) := by
  simp [persistUser, setKey]

theorem persistUser_other (st : LocalStore) (u : PersistArg) (k : Str)
    (h1 : k ≠ KEY_nim) (h2 : k ≠ KEY_nama) (h3 : k ≠ KEY_email) :
    persistUser st u k = st k := by
  simp [persistUser, setKey, h1, h2, h3]

/-! ### Structural lemmas about `handleAuth` -/

/-- When validation fails, `handleAuth` reports the message and performs
no effect at all. -/
theorem handleAuth_of_validate_some {mode : AuthMode} {form : FormState}
    {remote : RemoteStore} {loc : LocalStore} {outcome : ReadOutcome} {msg : Str}
    (h : validateForm mode form = some msg) :
    handleAuth mode form remote loc outcome =
      ⟨some (AuthError.validationError msg), remote, loc, []⟩ := by
  unfold handleAuth
  rw [h]

theorem loginBranch_none (form : FormState) (remote : RemoteStore)
    (loc : LocalStore) (disp : Str) (tr : List Event) :
    loginBranch form remote loc disp tr none =
      ⟨some AuthError.notFoundError, remote, loc, tr⟩ := rfl

theorem loginBranch_some (form : FormState) (remote : RemoteStore)
    (loc : LocalStore) (disp : Str) (tr : List Event) (data : UserDoc) :
    loginBranch form remote loc disp tr (some data) =
      if data.password ≠ some form.password then
        ⟨some AuthError.invalidCredentialError, remote, loc, tr⟩
      else
        ⟨none, remote,
          persistUser loc
            ⟨data.nim.getD disp, data.nama.getD msgDefaultName,
              some (data.email.getD []), none⟩,
          tr ++ [Event.persist, Event.navigate]⟩ := rfl

/-- The local store after `loginBranch` is either untouched or the
result of one `persistUser` call. -/
theorem loginBranch_loc_cases (form : FormState) (remote : RemoteStore)
    (loc : LocalStore) (disp : Str) (tr : List Event) (snapshot : Option UserDoc) :
    (loginBranch form remote loc disp tr snapshot).loc = loc ∨
    ∃ u, (loginBranch form remote loc disp tr snapshot).loc = persistUser loc u := by
  cases snapshot with
  | none => left; rfl
  | some data =>
    rw [loginBranch_some]
    split
    · left; rfl
    · right; exact ⟨_, rfl⟩

/-- The local store after `afterFetch` is either untouched or the result
of one `persistUser` call. -/
theorem afterFetch_loc_cases (mode : AuthMode) (form : FormState)
    (remote : RemoteStore) (loc : LocalStore) (k disp : Str)
    (snapshot : Option UserDoc) (usedCache : Bool) (tr : List Event) :
    (afterFetch mode form remote loc k disp snapshot usedCache tr).loc = loc ∨
    ∃ u, (afterFetch mode form remote loc k disp snapshot usedCache tr).loc
      = persistUser loc u := by
  unfold afterFetch
  split
  · left; rfl
  · split
    · split
      · left; rfl
      · right; exact ⟨_, rfl⟩
    · exact loginBranch_loc_cases form remote loc disp tr snapshot

/-- The local store after `handleAuth` is either untouched or the result
of one `persistUser` call. -/
theorem handleAuth_loc_cases (mode : AuthMode) (form : FormState)
    (remote : RemoteStore) (loc : LocalStore) (outcome : ReadOutcome) :
    (handleAuth mode form remote loc outcome).loc = loc ∨
    ∃ u, (handleAuth mode form remote loc outcome).loc = persistUser loc u := by
  unfold handleAuth
  cases hv : validateForm mode form with
  | some msg => left; rfl
  | none =>
    cases hk : lookup remote outcome (normalizeNim form.nim) with
    | none => left; rfl
    | some sb =>
      obtain ⟨snapshot, usedCache⟩ := sb
      exact afterFetch_loc_cases mode form remote loc _ _ snapshot usedCache _

/-- With validation passed and a resolved lookup, `handleAuth` is
`afterFetch` on the resolved snapshot. -/
theorem handleAuth_eq_afterFetch {mode : AuthMode} {form : FormState}
    {remote : RemoteStore} {loc : LocalStore} {outcome : ReadOutcome}
    {snap : Option UserDoc} {uc : Bool}
    (hv : validateForm mode form = none)
    (hk : lookup remote outcome (normalizeNim form.nim) = some (snap, uc)) :
    handleAuth mode form remote loc outcome =
      afterFetch mode form remote loc (normalizeNim form.nim) (trimValue form.nim)
        snap uc (readTrace outcome) := by
  unfold handleAuth
  rw [hv, hk]

/-- When both reads fail, `handleAuth` reports a connectivity error and
changes nothing. -/
theorem handleAuth_bothFail {mode : AuthMode} {form : FormState}
    {remote : RemoteStore} {loc : LocalStore}
    (hv : validateForm mode form = none) :
    handleAuth mode form remote loc ReadOutcome.bothFail =
      ⟨some AuthError.connectivityError, remote, loc,
        [Event.readServer, Event.readCache]⟩ := by
  unfold handleAuth
  rw [hv]
  rfl

/-- `afterFetch` in register mode on a cache-sourced read: rejected. -/
theorem afterFetch_register_cache (form : FormState) (remote : RemoteStore)
    (loc : LocalStore) (k disp : Str) (snapshot : Option UserDoc) (tr : List Event) :
    afterFetch AuthMode.register form remote loc k disp snapshot true tr =
      ⟨some AuthError.connectivityRequiredError, remote, loc, tr⟩ := by
  unfold afterFetch
  rw [if_pos ⟨rfl, rfl⟩]

/-- `afterFetch` in register mode, fresh read, document present:
duplicate. -/
theorem afterFetch_register_dup (form : FormState) (remote : RemoteStore)
    (loc : LocalStore) (k disp : Str) (data : UserDoc) (tr : List Event) :
    afterFetch AuthMode.register form remote loc k disp (some data) false tr =
      ⟨some AuthError.duplicateIdentifierError, remote, loc, tr⟩ := by
  unfold afterFetch
  rw [if_neg (by simp), if_pos rfl]
  simp

/-- `afterFetch` in register mode, fresh read, no document: write the
document, persist the session, navigate — in that order. -/
theorem afterFetch_register_new (form : FormState) (remote : RemoteStore)
    (loc : LocalStore) (k disp : Str) (tr : List Event) :
    afterFetch AuthMode.register form remote loc k disp none false tr =
      ⟨none, setDocAt remote k (registeredDoc (buildUserPayload form) k),
        persistUser loc
          ⟨(buildUserPayload form).nim, (buildUserPayload form).nama,
            some (buildUserPayload form).email, some (buildUserPayload form).password⟩,
        tr ++ [Event.write, Event.persist, Event.navigate]⟩ := by
  unfold afterFetch
  rw [if_neg (by simp), if_pos rfl]
  simp

/-- `afterFetch` in login mode is the login tail. -/
theorem afterFetch_login (form : FormState) (remote : RemoteStore)
    (loc : LocalStore) (k disp : Str) (snapshot : Option UserDoc)
    (uc : Bool) (tr : List Event) :
    afterFetch AuthMode.login form remote loc k disp snapshot uc tr =
      loginBranch form remote loc disp tr snapshot := by
  unfold afterFetch
  rw [if_neg (by simp), if_neg (by simp)]

/-! ### Inversions of `validateForm` -/

theorem validateForm_nim_ne {mode : AuthMode} {form : FormState}
    (h : validateForm mode form = none) : trimValue form.nim ≠ [] := by
  intro hnil
  unfold validateForm at h
  rw [if_pos hnil] at h
  cases h

theorem validateForm_password_ne {mode : AuthMode} {form : FormState}
    (h : validateForm mode form = none) : trimValue form.password ≠ [] := by
  intro hnil
  unfold validateForm at h
  by_cases h1 : trimValue form.nim = []
  · rw [if_pos h1] at h; cases h
  · rw [if_neg h1, if_pos hnil] at h; cases h

/-- A login form passes validation as soon as identifier and credential
are non-empty after trimming. -/
theorem validateForm_login_none {form : FormState}
    (h1 : trimValue form.nim ≠ []) (h2 : trimValue form.password ≠ []) :
    validateForm AuthMode.login form = none := by
  unfold validateForm
  rw [if_neg h1, if_neg h2, if_neg (by simp)]

/-- An all-whitespace credential is rejected by validation with the
credential-required message (given a non-empty identifier). -/
theorem validateForm_ws_password {mode : AuthMode} {form : FormState}
    (h1 : trimValue form.nim ≠ []) (h2 : trimValue form.password = []) :
    validateForm mode form = some msgPasswordRequired := by
  unfold validateForm
  rw [if_neg h1, if_pos h2]

/-! ### Store evaluation lemmas -/

theorem setDocAt_self (r : RemoteStore) (k : Str) (d : UserDoc) :
    setDocAt r k d k = some d := by
  simp [setDocAt]

theorem handleLogout_at_nim (st : LocalStore) :
    handleLogout st KEY_nim = some [] := by
  simp [handleLogout, setKey, key_nim_ne_email, key_nim_ne_nama]

theorem handleLogout_at_nama (st : LocalStore) :
    handleLogout st KEY_nama = some [] := by
  simp [handleLogout, setKey, key_nama_ne_email]

theorem handleLogout_at_email (st : LocalStore) :
    handleLogout st KEY_email = some [] := by
  simp [handleLogout, setKey]

theorem clearPersistedUser_at_nim (st : LocalStore) :
    clearPersistedUser st KEY_nim = none := by
  simp [clearPersistedUser, delKey, key_nim_ne_email, key_nim_ne_nama]

theorem clearPersistedUser_at_nama (st : LocalStore) :
    clearPersistedUser st KEY_nama = none := by
  simp [clearPersistedUser, delKey, key_nama_ne_email]

theorem clearPersistedUser_at_email (st : LocalStore) :
    clearPersistedUser st KEY_email = none := by
  simp [clearPersistedUser, delKey]

/-! ### Claim theorems -/

/-- C2: a register-mode submit whose point read was served from the
cache fallback rejects with `ConnectivityRequiredError` regardless of
the cached content; the remote and local stores are unchanged and the
trace holds no write and no persist event. -/
theorem register_cache_read_rejected (form : FormState)
    (remote cache : RemoteStore) (loc : LocalStore)
    (hval : validateForm AuthMode.register form = none) :
    handleAuth AuthMode.register form remote loc (ReadOutcome.cacheOk cache) =
      ⟨some AuthError.connectivityRequiredError, remote, loc,
        [Event.readServer, Event.readCache]⟩ := by
  have hk : lookup remote (ReadOutcome.cacheOk cache) (normalizeNim form.nim) =
      some (cache (normalizeNim form.nim), true) := rfl
  rw [handleAuth_eq_afterFetch hval hk]
  exact afterFetch_register_cache form remote loc _ _ _ _

/-- C2 witness at a concrete valid register form over empty stores. -/
theorem register_cache_read_rejected_witness :
    validateForm AuthMode.register
      ⟨"a100".data, "Jane Doe".data, "jane@x.edu".data, "pw1".data⟩ = none ∧
    handleAuth AuthMode.register
      ⟨"a100".data, "Jane Doe".data, "jane@x.edu".data, "pw1".data⟩
      (fun _ => none) emptyStore (ReadOutcome.cacheOk (fun _ => none)) =
      ⟨some AuthError.connectivityRequiredError, fun _ => none, emptyStore,
        [Event.readServer, Event.readCache]⟩ :=
  ⟨by decide, register_cache_read_rejected _ _ _ _ (by decide)⟩

/-- C4: a login submit that finds a document at the normalized key whose
stored credential differs from the submitted one yields
`InvalidCredentialError` (never `NotFoundError`), leaving both stores
unchanged. -/
theorem login_wrong_credential_invalid (form : FormState)
    (remote : RemoteStore) (loc : LocalStore) (outcome : ReadOutcome)
    (d : UserDoc) (uc : Bool) (p : Str)
    (hval : validateForm AuthMode.login form = none)
    (hsnap : lookup remote outcome (normalizeNim form.nim) = some (some d, uc))
    (hcred : d.password = some p) (hne : p ≠ form.password) :
    handleAuth AuthMode.login form remote loc outcome =
      ⟨some AuthError.invalidCredentialError, remote, loc, readTrace outcome⟩ := by
  rw [handleAuth_eq_afterFetch hval hsnap, afterFetch_login, loginBranch_some,
    if_pos (by rw [hcred]; intro hco; exact hne (Option.some.inj hco))]

/-- C4 witness: stored credential `pw1`, submitted credential `wrong`. -/
theorem login_wrong_credential_invalid_witness :
    validateForm AuthMode.login ⟨"a100".data, [], [], "wrong".data⟩ = none ∧
    handleAuth AuthMode.login ⟨"a100".data, [], [], "wrong".data⟩
      (fun q => if q = "a100".data then
        some ⟨some "a100".data, some "Jane Doe".data, some "jane@x.edu".data,
          some "pw1".data, some "a100".data⟩ else none)
      emptyStore ReadOutcome.serverOk =
      ⟨some AuthError.invalidCredentialError,
        (fun q => if q = "a100".data then
          some ⟨some "a100".data, some "Jane Doe".data, some "jane@x.edu".data,
            some "pw1".data, some "a100".data⟩ else none),
        emptyStore, [Event.readServer]⟩ :=
  ⟨by decide,
    login_wrong_credential_invalid ⟨"a100".data, [], [], "wrong".data⟩
      (fun q => if q = "a100".data then
        some ⟨some "a100".data, some "Jane Doe".data, some "jane@x.edu".data,
          some "pw1".data, some "a100".data⟩ else none)
      emptyStore ReadOutcome.serverOk
      ⟨some "a100".data, some "Jane Doe".data, some "jane@x.edu".data,
        some "pw1".data, some "a100".data⟩
      false ("pw1".data)
      (by decide) (by decide) (by decide) (by decide)⟩

/-- C6: after the listing screen's logout (which writes the empty string
into all three session keys), the session bootstrap renders the form
instead of auto-routing to the listing. -/
theorem logout_then_bootstrap_renders_form (st : LocalStore) :
    sessionBootstrap (handleLogout st) = BootResult.renderForm := by
  unfold sessionBootstrap
  rw [handleLogout_at_nim st]
  simp [truthy]

/-- C7: a register-mode submit whose email (after trimming) fails the
regex test is rejected by validation: the result is a `ValidationError`,
both stores are unchanged, and the trace is empty (no server read, no
cache read, no write). -/
theorem register_invalid_email_no_remote (form : FormState)
    (remote : RemoteStore) (loc : LocalStore) (outcome : ReadOutcome)
    (h : emailRegexTest (trimValue form.email) = false) :
    ∃ msg, handleAuth AuthMode.register form remote loc outcome =
      ⟨some (AuthError.validationError msg), remote, loc, []⟩ := by
  have hv : ∃ msg, validateForm AuthMode.register form = some msg := by
    unfold validateForm
    by_cases h1 : trimValue form.nim = []
    · rw [if_pos h1]; exact ⟨_, rfl⟩
    · rw [if_neg h1]
      by_cases h2 : trimValue form.password = []
      · rw [if_pos h2]; exact ⟨_, rfl⟩
      · rw [if_neg h2, if_pos rfl]
        by_cases h3 : trimValue form.nama = []
        · rw [if_pos h3]; exact ⟨_, rfl⟩
        · rw [if_neg h3]
          by_cases h4 : trimValue form.email = []
          · rw [if_pos h4]; exact ⟨_, rfl⟩
          · rw [if_neg h4, if_pos (by rw [h]; rfl)]
            exact ⟨_, rfl⟩
  obtain ⟨msg, hm⟩ := hv
  exact ⟨msg, handleAuth_of_validate_some hm⟩

/-- C7 witness: the spec's scenario `register with email "not-an-email"`. -/
theorem register_invalid_email_no_remote_witness :
    emailRegexTest (trimValue ("not-an-email".data : Str)) = false ∧
    ∃ msg, handleAuth AuthMode.register
      ⟨"a100".data, "Jane Doe".data, "not-an-email".data, "pw1".data⟩
      (fun _ => none) emptyStore ReadOutcome.serverOk =
      ⟨some (AuthError.validationError msg), fun _ => none, emptyStore, []⟩ :=
  ⟨by decide, register_invalid_email_no_remote _ _ _ _ (by decide)⟩

/-- C8: when the listing scan fails, the failure is logged and swallowed:
the state keeps the empty list, loading ends, and the screen renders the
(empty) list view — the component has no error view at all. -/
theorem scan_failure_presents_empty_list :
    fetchData initialMState ScanOutcome.fail = (⟨[], false⟩, true) ∧
    renderListing (fetchData initialMState ScanOutcome.fail).1 =
      ListingView.listView [] :=
  ⟨rfl, rfl⟩

/-- C10: session persistence writes exactly the three session keys with
the nim/nama/email fields, is independent of any password carried by its
argument, and no `handleAuth` run ever changes the local store at any
other key — the plaintext credential is never written locally. -/
theorem persist_session_drops_credential (st : LocalStore) (u : PersistArg)
    (k : Str) (p : Option Str) (mode : AuthMode) (form : FormState)
    (remote : RemoteStore) (outcome : ReadOutcome)
    (h1 : k ≠ KEY_nim) (h2 : k ≠ KEY_nama) (h3 : k ≠ KEY_email) :
    persistUser st u k = st k ∧
    persistUser st u KEY_nim = some u.nim ∧
    persistUser st u KEY_nama = some u.nama ∧
    persistUser st u KEY_email = some (u.email.getD []) ∧
    persistUser st ⟨u.nim, u.nama, u.email, p⟩ = persistUser st u ∧
    (handleAuth mode form remote st outcome).loc k = st k := by
  refine ⟨persistUser_other st u k h1 h2 h3, persistUser_at_nim st u,
    persistUser_at_nama st u, persistUser_at_email st u, rfl, ?_⟩
  rcases handleAuth_loc_cases mode form remote st outcome with heq | ⟨w, heq⟩
  · rw [heq]
  · rw [heq]; exact persistUser_other st w k h1 h2 h3

/-- C10 witness at concrete values (key `other`, a payload carrying a
password, and a failing login run). -/
theorem persist_session_drops_credential_witness :
    persistUser emptyStore ⟨"a".data, "b".data, none, some "pw".data⟩ "other".data =
      emptyStore "other".data ∧
    persistUser emptyStore ⟨"a".data, "b".data, none, some "pw".data⟩ KEY_nim =
      some "a".data ∧
    persistUser emptyStore ⟨"a".data, "b".data, none, some "pw".data⟩ KEY_nama =
      some "b".data ∧
    persistUser emptyStore ⟨"a".data, "b".data, none, some "pw".data⟩ KEY_email =
      some (Option.getD none []) ∧
    persistUser emptyStore ⟨"a".data, "b".data, none, none⟩ =
      persistUser emptyStore ⟨"a".data, "b".data, none, some "pw".data⟩ ∧
    (handleAuth AuthMode.login ⟨[], [], [], []⟩ (fun _ => none) emptyStore
      ReadOutcome.bothFail).loc "other".data = emptyStore "other".data :=
  persist_session_drops_credential emptyStore ⟨"a".data, "b".data, none, some "pw".data⟩
    ("other".data) none AuthMode.login ⟨[], [], [], []⟩ (fun _ => none)
    ReadOutcome.bothFail (by decide) (by decide) (by decide)

/-- C1: every local store reachable by the app's operations satisfies the
Session Record invariant — the three keys are all absent or all present. -/
theorem session_record_all_or_none {st : LocalStore} (h : Reachable st) :
    allOrNone st := by
  induction h with
  | init => exact ⟨rfl, rfl⟩
  | auth mode form remote outcome hst ih =>
    rcases handleAuth_loc_cases mode form remote _ outcome with heq | ⟨u, heq⟩
    · rw [heq]; exact ih
    · rw [heq]
      refine ⟨?_, ?_⟩
      · simp [persistUser_at_nim, persistUser_at_nama]
      · simp [persistUser_at_nama, persistUser_at_email]
  | logoutListing hst ih =>
    refine ⟨?_, ?_⟩
    · rw [handleLogout_at_nim, handleLogout_at_nama]
    · rw [handleLogout_at_nama, handleLogout_at_email]
  | logoutLocal hst ih =>
    refine ⟨?_, ?_⟩
    · rw [clearPersistedUser_at_nim, clearPersistedUser_at_nama]
    · rw [clearPersistedUser_at_nama, clearPersistedUser_at_email]

/-- C1 witness: the store after a listing logout from the fresh install. -/
theorem session_record_all_or_none_witness :
    allOrNone (handleLogout emptyStore) :=
  session_record_all_or_none (Reachable.logoutListing Reachable.init)

/-- C3: if a registration succeeds over a fresh server read, a second
register submit whose identifier has the same normalized key (same after
trim + lowercase) is rejected with `DuplicateIdentifierError` on its own
fresh server read. -/
theorem register_duplicate_normalized_key (f1 f2 : FormState)
    (remote : RemoteStore) (loc1 loc2 : LocalStore)
    (hnorm : normalizeNim f2.nim = normalizeNim f1.nim)
    (hv2 : validateForm AuthMode.register f2 = none)
    (hfirst : (handleAuth AuthMode.register f1 remote loc1
      ReadOutcome.serverOk).result = none) :
    (handleAuth AuthMode.register f2
      (handleAuth AuthMode.register f1 remote loc1 ReadOutcome.serverOk).remote
      loc2 ReadOutcome.serverOk).result = some AuthError.duplicateIdentifierError := by
  cases hv1 : validateForm AuthMode.register f1 with
  | some m =>
    rw [handleAuth_of_validate_some hv1] at hfirst
    simp at hfirst
  | none =>
    have hk1 : lookup remote ReadOutcome.serverOk (normalizeNim f1.nim) =
        some (remote (normalizeNim f1.nim), false) := rfl
    cases hd : remote (normalizeNim f1.nim) with
    | some d =>
      rw [hd] at hk1
      rw [handleAuth_eq_afterFetch hv1 hk1, afterFetch_register_dup] at hfirst
      simp at hfirst
    | none =>
      rw [hd] at hk1
      rw [handleAuth_eq_afterFetch hv1 hk1, afterFetch_register_new]
      dsimp only
      have hk2 : lookup
          (setDocAt remote (normalizeNim f1.nim)
            (registeredDoc (buildUserPayload f1) (normalizeNim f1.nim)))
          ReadOutcome.serverOk (normalizeNim f2.nim) =
          some (setDocAt remote (normalizeNim f1.nim)
            (registeredDoc (buildUserPayload f1) (normalizeNim f1.nim))
            (normalizeNim f2.nim), false) := rfl
      nth_rewrite 2 [hnorm] at hk2
      rw [setDocAt_self] at hk2
      rw [handleAuth_eq_afterFetch hv2 hk2, afterFetch_register_dup]

/-- C3 witness: the spec's `" A100 "` then `"a100"` scenario. -/
theorem register_duplicate_normalized_key_witness :
    normalizeNim ("a100".data : Str) = normalizeNim (" A100 ".data : Str) ∧
    validateForm AuthMode.register
      ⟨"a100".data, "John Doe".data, "john@x.edu".data, "pw2".data⟩ = none ∧
    (handleAuth AuthMode.register
      ⟨" A100 ".data, "Jane Doe".data, "jane@x.edu".data, "pw1".data⟩
      (fun _ => none) emptyStore ReadOutcome.serverOk).result = none ∧
    (handleAuth AuthMode.register
      ⟨"a100".data, "John Doe".data, "john@x.edu".data, "pw2".data⟩
      (handleAuth AuthMode.register
        ⟨" A100 ".data, "Jane Doe".data, "jane@x.edu".data, "pw1".data⟩
        (fun _ => none) emptyStore ReadOutcome.serverOk).remote
      emptyStore ReadOutcome.serverOk).result = some AuthError.duplicateIdentifierError :=
  ⟨by decide, by decide, by decide,
    register_duplicate_normalized_key
      ⟨" A100 ".data, "Jane Doe".data, "jane@x.edu".data, "pw1".data⟩
      ⟨"a100".data, "John Doe".data, "john@x.edu".data, "pw2".data⟩
      (fun _ => none) emptyStore emptyStore
      (by decide) (by decide) (by decide)⟩

/-- C5: within every successful submit the side effects are strictly
ordered — the remote write (register only) precedes the session persist,
and the persist precedes the navigation signal. -/
theorem submit_effects_strictly_ordered (mode : AuthMode) (form : FormState)
    (remote : RemoteStore) (loc : LocalStore) (outcome : ReadOutcome)
    (h : (handleAuth mode form remote loc outcome).result = none) :
    orderedEffects mode (handleAuth mode form remote loc outcome).trace := by
  cases hv : validateForm mode form with
  | some m => rw [handleAuth_of_validate_some hv] at h; simp at h
  | none =>
    cases outcome with
    | bothFail => rw [handleAuth_bothFail hv] at h; simp at h
    | serverOk =>
      have hk : lookup remote ReadOutcome.serverOk (normalizeNim form.nim) =
          some (remote (normalizeNim form.nim), false) := rfl
      rw [handleAuth_eq_afterFetch hv hk] at h ⊢
      cases mode with
      | register =>
        cases hd : remote (normalizeNim form.nim) with
        | some d =>
          rw [hd, afterFetch_register_dup] at h
          simp at h
        | none =>
          rw [afterFetch_register_new]
          unfold orderedEffects
          dsimp only
          decide
      | login =>
        cases hd : remote (normalizeNim form.nim) with
        | none =>
          rw [hd, afterFetch_login, loginBranch_none] at h
          simp at h
        | some d =>
          rw [hd] at h
          rw [afterFetch_login, loginBranch_some] at h ⊢
          by_cases hp : d.password ≠ some form.password
          · rw [if_pos hp] at h; simp at h
          · rw [if_neg hp]
            unfold orderedEffects
            dsimp only
            decide
    | cacheOk cacheStore =>
      have hk : lookup remote (ReadOutcome.cacheOk cacheStore) (normalizeNim form.nim) =
          some (cacheStore (normalizeNim form.nim), true) := rfl
      have hrt : readTrace (ReadOutcome.cacheOk cacheStore) =
          [Event.readServer, Event.readCache] := rfl
      rw [handleAuth_eq_afterFetch hv hk] at h ⊢
      cases mode with
      | register =>
        rw [afterFetch_register_cache] at h
        simp at h
      | login =>
        cases hd : cacheStore (normalizeNim form.nim) with
        | none =>
          rw [hd, afterFetch_login, loginBranch_none] at h
          simp at h
        | some d =>
          rw [hd] at h
          rw [afterFetch_login, loginBranch_some] at h ⊢
          by_cases hp : d.password ≠ some form.password
          · rw [if_pos hp] at h; simp at h
          · rw [if_neg hp, hrt]
            unfold orderedEffects
            dsimp only
            decide

/-- C5 witness: a concrete successful registration over empty stores. -/
theorem submit_effects_strictly_ordered_witness :
    (handleAuth AuthMode.register
      ⟨"a100".data, "Jane Doe".data, "jane@x.edu".data, "pw1".data⟩
      (fun _ => none) emptyStore ReadOutcome.serverOk).result = none ∧
    orderedEffects AuthMode.register
      (handleAuth AuthMode.register
        ⟨"a100".data, "Jane Doe".data, "jane@x.edu".data, "pw1".data⟩
        (fun _ => none) emptyStore ReadOutcome.serverOk).trace :=
  ⟨by decide, submit_effects_strictly_ordered _ _ _ _ _ (by decide)⟩

/-- C9: credential whitespace is asymmetric — registering a credential
with surrounding whitespace stores it untrimmed, so logging in with the
trimmed variant fails with `InvalidCredentialError`; an all-whitespace
credential is instead rejected at validation with the
credential-required message. -/
theorem credential_whitespace_asymmetry (f g : FormState) (remote : RemoteStore)
    (loc1 loc2 : LocalStore)
    (hvf : validateForm AuthMode.register f = none)
    (hws : trimValue f.password ≠ f.password)
    (hnew : remote (normalizeNim f.nim) = none)
    (hgnim : normalizeNim g.nim = normalizeNim f.nim)
    (hgpw : g.password = trimValue f.password) :
    (handleAuth AuthMode.register f remote loc1 ReadOutcome.serverOk).result = none ∧
    (handleAuth AuthMode.login g
      (handleAuth AuthMode.register f remote loc1 ReadOutcome.serverOk).remote
      loc2 ReadOutcome.serverOk).result = some AuthError.invalidCredentialError ∧
    (∀ (h : FormState) (mode : AuthMode),
      trimValue h.nim ≠ [] → trimValue h.password = [] →
      validateForm mode h = some msgPasswordRequired) := by
  have hk1 : lookup remote ReadOutcome.serverOk (normalizeNim f.nim) =
      some (none, false) := by
    show some (remote (normalizeNim f.nim), false) = some (none, false)
    rw [hnew]
  rw [handleAuth_eq_afterFetch hvf hk1, afterFetch_register_new]
  dsimp only
  refine ⟨rfl, ?_, fun h mode h1 h2 => validateForm_ws_password h1 h2⟩
  have hgnimne : trimValue g.nim ≠ [] := by
    intro hz
    have hzz : normalizeNim g.nim = [] := normalizeNim_eq_nil_iff.mpr hz
    rw [hgnim] at hzz
    exact validateForm_nim_ne hvf (normalizeNim_eq_nil_iff.mp hzz)
  have hgpwne : trimValue g.password ≠ [] := by
    rw [hgpw]
    exact trimValue_trimValue_ne_nil (validateForm_password_ne hvf)
  have hvg : validateForm AuthMode.login g = none :=
    validateForm_login_none hgnimne hgpwne
  have hk2 : lookup (setDocAt remote (normalizeNim f.nim)
      (registeredDoc (buildUserPayload f) (normalizeNim f.nim)))
      ReadOutcome.serverOk (normalizeNim g.nim) =
      some (setDocAt remote (normalizeNim f.nim)
        (registeredDoc (buildUserPayload f) (normalizeNim f.nim))
        (normalizeNim g.nim), false) := rfl
  nth_rewrite 2 [hgnim] at hk2
  rw [setDocAt_self] at hk2
  have hcond : (registeredDoc (buildUserPayload f) (normalizeNim f.nim)).password ≠
      some g.password := by
    show some f.password ≠ some g.password
    intro hco
    have hco2 := Option.some.inj hco
    rw [hgpw] at hco2
    exact hws hco2.symm
  rw [handleAuth_eq_afterFetch hvg hk2, afterFetch_login, loginBranch_some,
    if_pos hcond]

/-- C9 witness: register `" pw1 "`, then log in with `"pw1"`. -/
theorem credential_whitespace_asymmetry_witness :
    validateForm AuthMode.register
      ⟨"a100".data, "Jane Doe".data, "jane@x.edu".data, " pw1 ".data⟩ = none ∧
    trimValue (" pw1 ".data : Str) ≠ " pw1 ".data ∧
    (handleAuth AuthMode.register
      ⟨"a100".data, "Jane Doe".data, "jane@x.edu".data, " pw1 ".data⟩
      (fun _ => none) emptyStore ReadOutcome.serverOk).result = none ∧
    (handleAuth AuthMode.login ⟨" A100 ".data, [], [], "pw1".data⟩
      (handleAuth AuthMode.register
        ⟨"a100".data, "Jane Doe".data, "jane@x.edu".data, " pw1 ".data⟩
        (fun _ => none) emptyStore ReadOutcome.serverOk).remote
      emptyStore ReadOutcome.serverOk).result = some AuthError.invalidCredentialError :=
  ⟨by decide, by decide, by decide,
    (credential_whitespace_asymmetry
      ⟨"a100".data, "Jane Doe".data, "jane@x.edu".data, " pw1 ".data⟩
      ⟨" A100 ".data, [], [], "pw1".data⟩
      (fun _ => none) emptyStore emptyStore
      (by decide) (by decide) (by decide) (by decide) (by decide)).2.1⟩

example : normalizeNim " A100 ".data = "a100".data := by decide

example : emailRegexTest "jane@x.edu".data = true := by decide

example : emailRegexTest "not-an-email".data = false := by decide

example : emailRegexTest "a@b.".data = false := by decide

example : emailRegexTest "@b.c".data = false := by decide

example : emailRegexTest "x a@b.c y".data = true := by decide
